import Mathlib

/-
Verification of the BKST session replay and order-execution engine.

The engine lives in the TradingChart React component (the same logic appears
twice in the repository: src/unnamed/part_004 and
src/bskt_app/frontend/src/pages/TradingChart.tsx; the trading logic is
identical in both).  Numbers that are JavaScript floats in the source are
embedded as exact rationals; trade ids (Date.now().toString()) and ISO
timestamps are embedded as naturals supplied by the caller.
-/

namespace BKST

/-- Trade side, the string union 'BUY' | 'SELL' of the source. -/
inductive Side where
  | BUY
  | SELL
  deriving DecidableEq, Repr

/-- The TimeFrame union type of the source (part_004 lines 67-78). -/
inductive TimeFrame where
  | m1 | m5 | m15 | m30 | h1 | h2 | h4 | h6 | h12 | D1 | W1
  deriving DecidableEq, Repr

/-- One OHLC candle (CandlestickData of lightweight-charts as used by the
source: time plus open, high, low, close). -/
structure Candle where
  time : Int
  open' : Rat
  high : Rat
  low : Rat
  close : Rat
  deriving DecidableEq, Repr

/-- The Trade interface (part_004 lines 46-53): id and timestamp are embedded
as naturals, profit is optional and set only on SELL. -/
structure Trade where
  id : Nat
  type : Side
  price : Rat
  quantity : Rat
  timestamp : Nat
  profit : Option Rat
  deriving DecidableEq, Repr

/-- The Position interface (part_004 lines 55-59). -/
structure Position where
  quantity : Rat
  averagePrice : Rat
  unrealizedPnL : Rat
  deriving DecidableEq, Repr

/-- The initial position state (part_004 lines 92-96). -/
def initialPosition : Position :=
  { quantity := 0, averagePrice := 0, unrealizedPnL := 0 }

/-- The slice of component state read and written by executeTrade:
balance, position and the trade history. -/
structure TradeState where
  balance : Rat
  position : Position
  trades : List Trade
  deriving DecidableEq, Repr

/-- Observable outcome of one executeTrade call: the guard at part_004
line 429 returns silently; the two alert() calls at lines 433 and 437
surface a message; otherwise a trade record is created. -/
inductive TradeOutcome where
  | silentReturn
  | insufficientBalanceAlert
  | insufficientPositionAlert
  | executed (trade : Trade)
  deriving DecidableEq, Repr

/-- Whether the outcome surfaces an error to the user: only the two
alert() branches do; the early return is silent. -/
def TradeOutcome.surfacesError : TradeOutcome → Bool
  | TradeOutcome.insufficientBalanceAlert => true
  | TradeOutcome.insufficientPositionAlert => true
  | _ => false

/-- executeTrade (part_004 lines 428-476).  `!currentPrice` on a number is
truth-y exactly for price 0 in this embedding.  The source pushes the trade
record first and then mutates `trade.profit` in the SELL branch; the net
effect recorded here is the final record prepended to the history. -/
def executeTrade (tradeId timestamp : Nat) (type : Side)
    (currentPrice tradeQuantity : Rat) (s : TradeState) :
    TradeState × TradeOutcome :=
  if currentPrice = 0 ∨ tradeQuantity ≤ 0 then (s, TradeOutcome.silentReturn)
  else
    let cost := currentPrice * tradeQuantity
    if type = Side.BUY ∧ cost > s.balance then
      (s, TradeOutcome.insufficientBalanceAlert)
    else if type = Side.SELL ∧ tradeQuantity > s.position.quantity then
      (s, TradeOutcome.insufficientPositionAlert)
    else
      match type with
      | Side.BUY =>
        let newQuantity := s.position.quantity + tradeQuantity
        let newAveragePrice :=
          if newQuantity > 0 then
            (s.position.averagePrice * s.position.quantity +
              currentPrice * tradeQuantity) / newQuantity
          else 0
        let trade : Trade :=
          { id := tradeId, type := type, price := currentPrice,
            quantity := tradeQuantity, timestamp := timestamp, profit := none }
        ({ balance := s.balance - cost,
           position := { quantity := newQuantity,
                         averagePrice := newAveragePrice,
                         unrealizedPnL := 0 },
           trades := trade :: s.trades },
         TradeOutcome.executed trade)
      | Side.SELL =>
        let newQuantity := s.position.quantity - tradeQuantity
        let profit := (currentPrice - s.position.averagePrice) * tradeQuantity
        let trade : Trade :=
          { id := tradeId, type := type, price := currentPrice,
            quantity := tradeQuantity, timestamp := timestamp,
            profit := some profit }
        ({ balance := s.balance + cost,
           position := { quantity := newQuantity,
                         averagePrice :=
                           if newQuantity > 0 then s.position.averagePrice
                           else 0,
                         unrealizedPnL := 0 },
           trades := trade :: s.trades },
         TradeOutcome.executed trade)

/-- The component state relevant to the replay controller, snapshotting and
portfolio display: cursor, playback flag, bar data, timeframe, plus the
trade-facing state (part_004 lines 87-107). -/
structure EngineState where
  currentCandleIndex : Nat
  isPlaying : Bool
  allCandles : List Candle
  selectedTimeframe : TimeFrame
  balance : Rat
  position : Position
  trades : List Trade
  deriving DecidableEq, Repr

/-- Current price as maintained by the visible-candles effect (part_004 lines
313-335): visibleCandles = allCandles.slice(0, index + 1) and currentPrice is
the close of its last candle; the initial value 0 persists while the candle
list is empty. -/
def currentPriceAt (candles : List Candle) (index : Nat) : Rat :=
  match (candles.take (index + 1)).getLast? with
  | some c => c.close
  | none => 0

/-- Current price of an engine state, derived from cursor and candle list. -/
def currentPriceOf (s : EngineState) : Rat :=
  currentPriceAt s.allCandles s.currentCandleIndex

/-- totalPortfolioValue (part_004 line 478): balance plus position marked at
the current price. -/
def totalPortfolioValue (s : EngineState) : Rat :=
  s.balance + s.position.quantity * currentPriceOf s

/-- handleStepForward (part_004 lines 406-409): advance the cursor unless it
is already at the last candle. -/
def handleStepForward (s : EngineState) : EngineState :=
  if s.currentCandleIndex < s.allCandles.length - 1 then
    { s with currentCandleIndex := s.currentCandleIndex + 1 }
  else s

/-- handleStepBack (part_004 lines 410-412): move the cursor back unless it
is already at index 0. -/
def handleStepBack (s : EngineState) : EngineState :=
  if s.currentCandleIndex > 0 then
    { s with currentCandleIndex := s.currentCandleIndex - 1 }
  else s

/-- The setCurrentCandleIndex updater passed to setInterval (part_004 lines
299-305): at or beyond the last index it stops playback and keeps the cursor,
otherwise it advances by one. -/
def intervalCallback (s : EngineState) : EngineState :=
  if s.currentCandleIndex ≥ s.allCandles.length - 1 then
    { s with isPlaying := false }
  else { s with currentCandleIndex := s.currentCandleIndex + 1 }

/-- One playback tick: the interval effect (part_004 lines 295-311) schedules
the interval only while isPlaying and the cursor is strictly before the last
index, so a tick fires the updater exactly under that guard. -/
def playbackTick (s : EngineState) : EngineState :=
  if s.isPlaying = true ∧ s.currentCandleIndex < s.allCandles.length - 1 then
    intervalCallback s
  else s

/-- The pure cursor operations of the replay controller. -/
inductive Op where
  | tick
  | stepForward
  | stepBack
  deriving DecidableEq, Repr

/-- Apply one cursor operation. -/
def applyOp (s : EngineState) : Op → EngineState
  | Op.tick => playbackTick s
  | Op.stepForward => handleStepForward s
  | Op.stepBack => handleStepBack s

/-- Run a sequence of cursor operations. -/
def runOps (s : EngineState) : List Op → EngineState
  | [] => s
  | op :: rest => runOps (applyOp s op) rest

/-- The snapshot body sent to PUT /sessions/id/state (part_004 lines
140-147), matching the nullable Session fields it is read back from
(lines 30-44). -/
structure SessionSnapshot where
  current_candle_index : Nat
  current_balance : Option Rat
  position_quantity : Rat
  position_avg_price : Rat
  trades_data : Option (List Trade)
  timeframe : TimeFrame
  deriving DecidableEq, Repr

/-- Build the persisted snapshot from the in-memory state (part_004 lines
140-147). -/
def buildSnapshot (s : EngineState) : SessionSnapshot :=
  { current_candle_index := s.currentCandleIndex
    current_balance := some s.balance
    position_quantity := s.position.quantity
    position_avg_price := s.position.averagePrice
    trades_data := some s.trades
    timeframe := s.selectedTimeframe }

/-- fetchSession state restore (part_004 lines 181-204) applied to the
mount-time component state s₀: balance falls back to starting capital when
the stored balance is null, unrealizedPnL is reset to 0 pending
recomputation, trades fall back to the empty list, and no trade history is
replayed against the candle data. -/
def restoreSession (starting_capital : Rat) (snap : SessionSnapshot)
    (s₀ : EngineState) : EngineState :=
  { s₀ with
    balance := snap.current_balance.getD starting_capital
    position := { quantity := snap.position_quantity
                  averagePrice := snap.position_avg_price
                  unrealizedPnL := 0 }
    currentCandleIndex := snap.current_candle_index
    selectedTimeframe := snap.timeframe
    trades := (snap.trades_data).getD [] }

/-- The unrealized-PnL effect (part_004 lines 420-426): recompute only when
a position is open and the current price is positive. -/
def recomputeUnrealizedPnL (currentPrice : Rat) (p : Position) : Position :=
  if p.quantity ≠ 0 ∧ currentPrice > 0 then
    { p with unrealizedPnL := (currentPrice - p.averagePrice) * p.quantity }
  else p

/-- Run a list of BUY commands, each given as (price, quantity), through
executeTrade in order.  Trade ids and timestamps do not influence balance or
position, so they are passed as 0. -/
def runBuys (s : TradeState) : List (Rat × Rat) → TradeState
  | [] => s
  | b :: rest => runBuys (executeTrade 0 0 Side.BUY b.1 b.2 s).1 rest

/-- A buy sequence is accepted from a given balance when every command has a
positive price and quantity and its cost fits in the running balance, so that
every command passes the executeTrade guards. -/
def buysAccepted : Rat → List (Rat × Rat) → Bool
  | _, [] => true
  | bal, b :: rest =>
      decide (0 < b.1) && decide (0 < b.2) && decide (b.1 * b.2 ≤ bal) &&
        buysAccepted (bal - b.1 * b.2) rest

/-- Total quantity of a buy sequence. -/
def totalQty (buys : List (Rat × Rat)) : Rat :=
  (buys.map Prod.snd).sum

/-- Quantity-weighted sum of the prices of a buy sequence. -/
def weightedSum (buys : List (Rat × Rat)) : Rat :=
  (buys.map (fun b => b.1 * b.2)).sum

/-- A degenerate candle whose four prices coincide, used for concrete
replay states. -/
def flatCandle (t : Int) (c : Rat) : Candle :=
  { time := t, open' := c, high := c, low := c, close := c }

/-- Concrete trade state used by the error-handling claims: balance 1000
with 2 units held at average price 50. -/
def c5State : TradeState :=
  { balance := 1000,
    position := { quantity := 2, averagePrice := 50, unrealizedPnL := 0 },
    trades := [] }

/-- Concrete scenario start: starting capital 10000, empty position. -/
def c3state0 : TradeState :=
  { balance := 10000, position := initialPosition, trades := [] }

/-- Concrete scenario after BUY 10 units at 100. -/
def c3state1 : TradeState := (executeTrade 1 1 Side.BUY 100 10 c3state0).1

/-- Concrete scenario after a further BUY 10 units at 110. -/
def c3state2 : TradeState := (executeTrade 2 2 Side.BUY 110 10 c3state1).1

/-- Concrete scenario result of SELL 5 units at 120. -/
def c3sell : TradeState × TradeOutcome := executeTrade 3 3 Side.SELL 120 5 c3state2

/-- Concrete replay state: two bars closing at 100 and 110, cursor on the
first bar, an open 1-unit position and zero cash. -/
def c1state : EngineState :=
  { currentCandleIndex := 0, isPlaying := false,
    allCandles := [flatCandle 0 100, flatCandle 1 110],
    selectedTimeframe := TimeFrame.m15,
    balance := 0,
    position := { quantity := 1, averagePrice := 100, unrealizedPnL := 0 },
    trades := [] }

/-- Concrete replay state: 50 bars with the cursor at the warm-up offset
20 (the initial currentCandleIndex of the source, part_004 line 105). -/
def c4state : EngineState :=
  { currentCandleIndex := 20, isPlaying := false,
    allCandles := List.replicate 50 (flatCandle 0 100),
    selectedTimeframe := TimeFrame.m15,
    balance := 10000, position := initialPosition, trades := [] }

/-- The 50-bar replay state with the cursor at the hard minimum 0. -/
def c4zero : EngineState := { c4state with currentCandleIndex := 0 }

/-- Concrete playing state: two bars, cursor at 0, playback running. -/
def c7state : EngineState :=
  { currentCandleIndex := 0, isPlaying := true,
    allCandles := [flatCandle 0 100, flatCandle 1 110],
    selectedTimeframe := TimeFrame.m15,
    balance := 1000, position := initialPosition, trades := [] }

/-- The playing state with the cursor on the last bar. -/
def c7end : EngineState := { c7state with currentCandleIndex := 1 }

/-- Concrete session state whose derived unrealized PnL is consistent with
the current price 100: 2 units at average 90 give PnL 20. -/
def c9state : EngineState :=
  { currentCandleIndex := 0, isPlaying := false,
    allCandles := [flatCandle 0 100],
    selectedTimeframe := TimeFrame.h1,
    balance := 500,
    position := { quantity := 2, averagePrice := 90, unrealizedPnL := 20 },
    trades := [] }

/-- BUY and SELL are distinct sides. -/
theorem side_buy_ne_sell : (Side.BUY = Side.SELL) = False := by simp

/-- SELL and BUY are distinct sides. -/
theorem side_sell_ne_buy : (Side.SELL = Side.BUY) = False := by simp

/-- Evaluation of executeTrade on a BUY that passes all three guards. -/
theorem executeTrade_buy_eq (tradeId timestamp : Nat) (s : TradeState) (p n : Rat)
    (hp : p ≠ 0) (hn : 0 < n) (hcost : p * n ≤ s.balance) :
    executeTrade tradeId timestamp Side.BUY p n s =
      ({ balance := s.balance - p * n,
         position :=
           { quantity := s.position.quantity + n,
             averagePrice :=
               if s.position.quantity + n > 0 then
                 (s.position.averagePrice * s.position.quantity + p * n) /
                   (s.position.quantity + n)
               else 0,
             unrealizedPnL := 0 },
         trades := { id := tradeId, type := Side.BUY, price := p, quantity := n,
                     timestamp := timestamp, profit := none } :: s.trades },
       TradeOutcome.executed
         { id := tradeId, type := Side.BUY, price := p, quantity := n,
           timestamp := timestamp, profit := none }) := by
  have h1 : ¬(p = 0 ∨ n ≤ 0) := by
    rintro (h | h)
    · exact hp h
    · exact absurd hn (not_lt.2 h)
  have h2 : ¬(Side.BUY = Side.BUY ∧ p * n > s.balance) :=
    fun h => (not_lt.2 hcost) h.2
  have h3 : ¬(Side.BUY = Side.SELL ∧ n > s.position.quantity) :=
    fun h => Side.noConfusion h.1
  simp only [executeTrade, if_neg h1, if_neg h2, if_neg h3]
  rw [if_neg (show ¬(True ∧ p * n > s.balance) from fun h => (not_lt.2 hcost) h.2)]

/-- Evaluation of executeTrade on a SELL that passes all three guards. -/
theorem executeTrade_sell_eq (tradeId timestamp : Nat) (s : TradeState) (p n : Rat)
    (hp : p ≠ 0) (hn : 0 < n) (hq : n ≤ s.position.quantity) :
    executeTrade tradeId timestamp Side.SELL p n s =
      ({ balance := s.balance + p * n,
         position :=
           { quantity := s.position.quantity - n,
             averagePrice :=
               if s.position.quantity - n > 0 then s.position.averagePrice
               else 0,
             unrealizedPnL := 0 },
         trades := { id := tradeId, type := Side.SELL, price := p, quantity := n,
                     timestamp := timestamp,
                     profit := some ((p - s.position.averagePrice) * n) } :: s.trades },
       TradeOutcome.executed
         { id := tradeId, type := Side.SELL, price := p, quantity := n,
           timestamp := timestamp,
           profit := some ((p - s.position.averagePrice) * n) }) := by
  have h1 : ¬(p = 0 ∨ n ≤ 0) := by
    rintro (h | h)
    · exact hp h
    · exact absurd hn (not_lt.2 h)
  have h2 : ¬(Side.SELL = Side.BUY ∧ p * n > s.balance) :=
    fun h => Side.noConfusion h.1
  have h3 : ¬(Side.SELL = Side.SELL ∧ n > s.position.quantity) :=
    fun h => (not_lt.2 hq) h.2
  simp only [executeTrade, if_neg h1, if_neg h2, if_neg h3]
  rw [if_neg (show ¬(True ∧ n > s.position.quantity) from fun h => (not_lt.2 hq) h.2)]

/-- C2: for a SELL of quantity 0 < n ≤ held quantity at a nonzero price p
(a zero price never reaches the SELL branch, part_004 line 429), the new
balance is the old balance plus p × n, the recorded profit is
(p − averagePrice) × n, the new quantity is the old quantity minus n, and
the average price is kept when shares remain and reset to 0 otherwise. -/
theorem c2_sell_updates_balance_profit_quantity
    (tradeId timestamp : Nat) (s : TradeState) (p n : Rat)
    (hp : p ≠ 0) (hn : 0 < n) (hq : n ≤ s.position.quantity) :
    (executeTrade tradeId timestamp Side.SELL p n s).1.balance =
        s.balance + p * n ∧
    (executeTrade tradeId timestamp Side.SELL p n s).1.position.quantity =
        s.position.quantity - n ∧
    (executeTrade tradeId timestamp Side.SELL p n s).1.position.averagePrice =
        (if s.position.quantity - n > 0 then s.position.averagePrice else 0) ∧
    ∃ tr, (executeTrade tradeId timestamp Side.SELL p n s).2 =
            TradeOutcome.executed tr ∧
      tr.profit = some ((p - s.position.averagePrice) * n) ∧
      (executeTrade tradeId timestamp Side.SELL p n s).1.trades =
        tr :: s.trades := by
  rw [executeTrade_sell_eq tradeId timestamp s p n hp hn hq]
  exact ⟨rfl, rfl, rfl, _, rfl, rfl, rfl⟩

/-- Witness for C2: selling 3 of 5 held (average price 80) at price 100. -/
theorem c2_witness :
    ((100 : Rat) ≠ 0 ∧ (0 : Rat) < 3 ∧ (3 : Rat) ≤ 5) ∧
    (executeTrade 9 9 Side.SELL 100 3
        { balance := 1000,
          position := { quantity := 5, averagePrice := 80, unrealizedPnL := 0 },
          trades := [] }).1.balance = 1000 + 100 * 3 := by
  refine ⟨⟨by norm_num, by norm_num, by norm_num⟩, ?_⟩
  exact (c2_sell_updates_balance_profit_quantity 9 9
    { balance := 1000,
      position := { quantity := 5, averagePrice := 80, unrealizedPnL := 0 },
      trades := [] } 100 3 (by norm_num) (by norm_num) (by norm_num)).1

/-- C5 counterexample: a BUY command with quantity 0 does not produce any
typed InvalidQuantity error; executeTrade returns silently with no surfaced
error (the guard at part_004 line 429 is a bare return). -/
theorem c5_counterexample :
    executeTrade 7 7 Side.BUY 100 0 c5State = (c5State, TradeOutcome.silentReturn) ∧
    TradeOutcome.surfacesError (executeTrade 7 7 Side.BUY 100 0 c5State).2 = false := by
  constructor
  · simp [executeTrade]
  · simp [executeTrade, TradeOutcome.surfacesError]

/-- C5 amended: a trade command with quantity ≤ 0 is a silent no-op: the
state is unchanged and no error of any kind is surfaced. -/
theorem c5_nonpositive_quantity_silent
    (tradeId timestamp : Nat) (type : Side) (p n : Rat) (s : TradeState)
    (hn : n ≤ 0) :
    executeTrade tradeId timestamp type p n s = (s, TradeOutcome.silentReturn) ∧
    TradeOutcome.surfacesError
      (executeTrade tradeId timestamp type p n s).2 = false := by
  have h1 : (p = 0 ∨ n ≤ 0) := Or.inr hn
  constructor
  · simp only [executeTrade, if_pos h1]
  · simp only [executeTrade, if_pos h1]
    rfl

/-- Witness for C5 amended: a SELL of quantity -1. -/
theorem c5_witness :
    ((-1 : Rat) ≤ 0) ∧
    executeTrade 8 8 Side.SELL 100 (-1) c5State =
      (c5State, TradeOutcome.silentReturn) :=
  ⟨by norm_num,
   (c5_nonpositive_quantity_silent 8 8 Side.SELL 100 (-1) c5State (by norm_num)).1⟩

/-- C6: a BUY whose cost exceeds the balance is rejected with the
insufficient-balance alert and leaves balance, position and trade history
untouched; a BUY whose cost equals the balance exactly is executed. -/
theorem c6_insufficient_funds_rejection
    (tradeId timestamp : Nat) (s : TradeState) (p n : Rat)
    (hp : p ≠ 0) (hn : 0 < n) :
    (p * n > s.balance →
      executeTrade tradeId timestamp Side.BUY p n s =
        (s, TradeOutcome.insufficientBalanceAlert)) ∧
    (p * n = s.balance →
      (∃ tr, (executeTrade tradeId timestamp Side.BUY p n s).2 =
          TradeOutcome.executed tr) ∧
      (executeTrade tradeId timestamp Side.BUY p n s).1.balance =
        s.balance - p * n) := by
  have h1 : ¬(p = 0 ∨ n ≤ 0) := by
    rintro (h | h)
    · exact hp h
    · exact absurd hn (not_lt.2 h)
  constructor
  · intro hover
    simp only [executeTrade, if_neg h1]
    rw [if_pos (show True ∧ p * n > s.balance from ⟨trivial, hover⟩)]
  · intro heq
    rw [executeTrade_buy_eq tradeId timestamp s p n hp hn (le_of_eq heq)]
    exact ⟨⟨_, rfl⟩, rfl⟩

/-- Witness for C6: the spec scenario balance 500, BUY 10 @ 100 is rejected;
with balance 1000 the same BUY costs exactly the balance and executes. -/
theorem c6_witness :
    ((100 : Rat) ≠ 0 ∧ (0 : Rat) < 10 ∧ (100 : Rat) * 10 > 500 ∧
      (100 : Rat) * 10 = 1000) ∧
    executeTrade 1 1 Side.BUY 100 10
        { balance := 500, position := initialPosition, trades := [] } =
      ({ balance := 500, position := initialPosition, trades := [] },
        TradeOutcome.insufficientBalanceAlert) ∧
    (executeTrade 2 2 Side.BUY 100 10
        { balance := 1000, position := initialPosition, trades := [] }).1.balance =
      1000 - 100 * 10 := by
  refine ⟨⟨by norm_num, by norm_num, by norm_num, by norm_num⟩, ?_, ?_⟩
  · exact (c6_insufficient_funds_rejection 1 1
      { balance := 500, position := initialPosition, trades := [] } 100 10
      (by norm_num) (by norm_num)).1 (by norm_num)
  · exact ((c6_insufficient_funds_rejection 2 2
      { balance := 1000, position := initialPosition, trades := [] } 100 10
      (by norm_num) (by norm_num)).2 (by norm_num)).2

/-- C8: the invariant quantity == 0 → averagePrice == 0 holds for the
initial position and is preserved by every executeTrade call, executed or
rejected. -/
theorem c8_zero_quantity_zero_average :
    (initialPosition.quantity = 0 → initialPosition.averagePrice = 0) ∧
    ∀ (tradeId timestamp : Nat) (type : Side) (p n : Rat) (s : TradeState),
      (s.position.quantity = 0 → s.position.averagePrice = 0) →
      ((executeTrade tradeId timestamp type p n s).1.position.quantity = 0 →
        (executeTrade tradeId timestamp type p n s).1.position.averagePrice = 0) := by
  refine ⟨fun _ => rfl, ?_⟩
  intro tradeId timestamp type p n s hs
  cases type
  all_goals simp only [executeTrade]
  all_goals split_ifs <;> intro hq0 <;> simp_all <;> try linarith

/-- Witness for C8: a SELL that closes the whole position resets the
average price to 0. -/
theorem c8_witness :
    (initialPosition.quantity = 0 → initialPosition.averagePrice = 0) ∧
    ((executeTrade 4 4 Side.SELL 100 2 c5State).1.position.quantity = 0 →
      (executeTrade 4 4 Side.SELL 100 2 c5State).1.position.averagePrice = 0) :=
  ⟨(c8_zero_quantity_zero_average).1,
   (c8_zero_quantity_zero_average).2 4 4 Side.SELL 100 2 c5State
     (fun h => absurd h (by norm_num [c5State]))⟩

/-- C10: with current price 0 (no bar data yet), executeTrade is a silent
no-op for every side and quantity: state unchanged, no trade appended, no
error surfaced. -/
theorem c10_zero_price_silent_noop
    (tradeId timestamp : Nat) (type : Side) (n : Rat) (s : TradeState) :
    executeTrade tradeId timestamp type 0 n s = (s, TradeOutcome.silentReturn) ∧
    TradeOutcome.surfacesError
      (executeTrade tradeId timestamp type 0 n s).2 = false := by
  constructor
  · simp only [executeTrade]
    rw [if_pos (show True ∨ n ≤ 0 from Or.inl trivial)]
  · simp only [executeTrade]
    rw [if_pos (show True ∨ n ≤ 0 from Or.inl trivial)]
    rfl

/-- An accepted buy sequence has nonnegative total quantity. -/
theorem buysAccepted_totalQty_nonneg :
    ∀ (buys : List (Rat × Rat)) (bal : Rat),
      buysAccepted bal buys = true → 0 ≤ totalQty buys := by
  intro buys
  induction buys with
  | nil => intro bal _; simp [totalQty]
  | cons b rest ih =>
    intro bal hacc
    simp only [buysAccepted, Bool.and_eq_true, decide_eq_true_eq] at hacc
    obtain ⟨⟨⟨_, hn⟩, _⟩, hrest⟩ := hacc
    have := ih (bal - b.1 * b.2) hrest
    simp only [totalQty, List.map_cons, List.sum_cons] at this ⊢
    linarith

/-- Running an accepted buy sequence accumulates quantity additively and
keeps averagePrice × quantity equal to its initial value plus the
quantity-weighted sum of executed prices. -/
theorem runBuys_accumulate :
    ∀ (buys : List (Rat × Rat)) (s : TradeState),
      0 ≤ s.position.quantity →
      buysAccepted s.balance buys = true →
      0 ≤ (runBuys s buys).position.quantity ∧
      (runBuys s buys).position.quantity = s.position.quantity + totalQty buys ∧
      (runBuys s buys).position.averagePrice * (runBuys s buys).position.quantity =
        s.position.averagePrice * s.position.quantity + weightedSum buys := by
  intro buys
  induction buys with
  | nil =>
    intro s hq _
    refine ⟨hq, ?_, ?_⟩ <;> simp [runBuys, totalQty, weightedSum]
  | cons b rest ih =>
    intro s hq hacc
    simp only [buysAccepted, Bool.and_eq_true, decide_eq_true_eq] at hacc
    obtain ⟨⟨⟨hp, hn⟩, hcost⟩, hrest⟩ := hacc
    have hq' : (0 : Rat) < s.position.quantity + b.2 := by linarith
    have heval := executeTrade_buy_eq 0 0 s b.1 b.2 (ne_of_gt hp) hn hcost
    rw [runBuys, heval]
    have hproj :
        ({ balance := s.balance - b.1 * b.2,
           position :=
             { quantity := s.position.quantity + b.2,
               averagePrice :=
                 if s.position.quantity + b.2 > 0 then
                   (s.position.averagePrice * s.position.quantity + b.1 * b.2) /
                     (s.position.quantity + b.2)
                 else 0,
               unrealizedPnL := 0 },
           trades := { id := 0, type := Side.BUY, price := b.1, quantity := b.2,
                       timestamp := 0, profit := none } :: s.trades },
         TradeOutcome.executed
           { id := 0, type := Side.BUY, price := b.1, quantity := b.2,
             timestamp := 0, profit := none }).1 =
        ({ balance := s.balance - b.1 * b.2,
           position :=
             { quantity := s.position.quantity + b.2,
               averagePrice :=
                 (s.position.averagePrice * s.position.quantity + b.1 * b.2) /
                   (s.position.quantity + b.2),
               unrealizedPnL := 0 },
           trades := { id := 0, type := Side.BUY, price := b.1, quantity := b.2,
                       timestamp := 0, profit := none } :: s.trades } : TradeState) := by
      rw [if_pos hq']
    rw [hproj]
    obtain ⟨ih1, ih2, ih3⟩ := ih
      { balance := s.balance - b.1 * b.2,
        position :=
          { quantity := s.position.quantity + b.2,
            averagePrice :=
              (s.position.averagePrice * s.position.quantity + b.1 * b.2) /
                (s.position.quantity + b.2),
            unrealizedPnL := 0 },
        trades := { id := 0, type := Side.BUY, price := b.1, quantity := b.2,
                    timestamp := 0, profit := none } :: s.trades }
      (le_of_lt hq') hrest
    refine ⟨ih1, ?_, ?_⟩
    · rw [ih2]
      simp only [totalQty, List.map_cons, List.sum_cons]
      ring
    · rw [ih3]
      have hcancel :
          (s.position.averagePrice * s.position.quantity + b.1 * b.2) /
              (s.position.quantity + b.2) * (s.position.quantity + b.2) =
            s.position.averagePrice * s.position.quantity + b.1 * b.2 :=
        div_mul_cancel₀ _ (ne_of_gt hq')
      simp only [weightedSum, List.map_cons, List.sum_cons]
      rw [hcancel]
      ring

/-- C3: from an empty position, any accepted BUY sequence yields an average
price equal to the quantity-weighted mean of the executed buy prices; and
the concrete spec scenario from starting capital 10000 works out. -/
theorem c3_weighted_average_and_scenario :
    (∀ (s : TradeState) (buys : List (Rat × Rat)),
      s.position.quantity = 0 → s.position.averagePrice = 0 →
      buysAccepted s.balance buys = true → buys ≠ [] →
      (runBuys s buys).position.averagePrice =
        weightedSum buys / totalQty buys) ∧
    (c3state1.balance = 9000 ∧ c3state1.position.quantity = 10 ∧
      c3state1.position.averagePrice = 100 ∧
      c3state2.balance = 7900 ∧ c3state2.position.quantity = 20 ∧
      c3state2.position.averagePrice = 105 ∧
      c3sell.1.balance = 8500 ∧ c3sell.1.position.quantity = 15 ∧
      c3sell.1.position.averagePrice = 105 ∧
      c3sell.2 = TradeOutcome.executed
        { id := 3, type := Side.SELL, price := 120, quantity := 5,
          timestamp := 3, profit := some 75 }) := by
  constructor
  · intro s buys hq0 havg0 hacc hne
    obtain ⟨_, h2, h3⟩ := runBuys_accumulate buys s (by rw [hq0]) hacc
    have htq : 0 < totalQty buys := by
      cases buys with
      | nil => exact absurd rfl hne
      | cons b rest =>
        simp only [buysAccepted, Bool.and_eq_true, decide_eq_true_eq] at hacc
        obtain ⟨⟨⟨_, hn⟩, _⟩, hrest⟩ := hacc
        have := buysAccepted_totalQty_nonneg rest (s.balance - b.1 * b.2) hrest
        simp only [totalQty, List.map_cons, List.sum_cons] at this ⊢
        linarith
    rw [eq_div_iff (ne_of_gt htq)]
    calc (runBuys s buys).position.averagePrice * totalQty buys
        = (runBuys s buys).position.averagePrice *
            (runBuys s buys).position.quantity := by
          rw [h2, hq0, zero_add]
      _ = weightedSum buys := by rw [h3, hq0, havg0]; ring
  · norm_num [c3state0, c3state1, c3state2, c3sell, executeTrade,
      initialPosition, side_buy_ne_sell, side_sell_ne_buy]

/-- Witness for C3: a single BUY of 10 units at price 100 from capital
10000 gives average price 100. -/
theorem c3_witness :
    (c3state0.position.quantity = 0 ∧ c3state0.position.averagePrice = 0 ∧
      buysAccepted c3state0.balance [((100 : Rat), (10 : Rat))] = true ∧
      ([((100 : Rat), (10 : Rat))] : List (Rat × Rat)) ≠ []) ∧
    (runBuys c3state0 [((100 : Rat), (10 : Rat))]).position.averagePrice =
      weightedSum [((100 : Rat), (10 : Rat))] /
        totalQty [((100 : Rat), (10 : Rat))] := by
  have hacc : buysAccepted c3state0.balance [((100 : Rat), (10 : Rat))] = true := by
    norm_num [buysAccepted, c3state0]
  refine ⟨⟨rfl, rfl, hacc, by simp⟩, ?_⟩
  exact c3_weighted_average_and_scenario.1 c3state0 [((100 : Rat), (10 : Rat))]
    rfl rfl hacc (by simp)

/-- Every pure cursor operation leaves balance, position, trades and the
candle list unchanged. -/
theorem applyOp_preserves (s : EngineState) (op : Op) :
    (applyOp s op).balance = s.balance ∧
    (applyOp s op).position = s.position ∧
    (applyOp s op).trades = s.trades ∧
    (applyOp s op).allCandles = s.allCandles := by
  cases op
  all_goals
    simp only [applyOp, playbackTick, intervalCallback, handleStepForward,
      handleStepBack]
  all_goals split_ifs <;> simp

/-- C1 counterexample: a stepForward with no trade executed moves the total
portfolio value of an open 1-unit position from 100 to 110, because the
current price becomes the close of the next bar. -/
theorem c1_counterexample :
    c1state.position.quantity = 1 ∧
    (handleStepForward c1state).balance = c1state.balance ∧
    (handleStepForward c1state).position = c1state.position ∧
    (handleStepForward c1state).trades = c1state.trades ∧
    totalPortfolioValue c1state = 100 ∧
    totalPortfolioValue (handleStepForward c1state) = 110 := by
  norm_num [c1state, handleStepForward, totalPortfolioValue, currentPriceOf,
    currentPriceAt, flatCandle]

/-- C1 amended: every pure cursor-advance operation leaves cashBalance,
position and trades unchanged, and leaves the total portfolio value
unchanged whenever the position quantity is 0. -/
theorem c1_cursor_ops_preserve_cash_and_position :
    ∀ (s : EngineState) (op : Op),
      (applyOp s op).balance = s.balance ∧
      (applyOp s op).position = s.position ∧
      (applyOp s op).trades = s.trades ∧
      (s.position.quantity = 0 →
        totalPortfolioValue (applyOp s op) = totalPortfolioValue s) := by
  intro s op
  obtain ⟨hb, hpos, htr, _⟩ := applyOp_preserves s op
  refine ⟨hb, hpos, htr, fun hq => ?_⟩
  simp [totalPortfolioValue, hb, hpos, hq]

/-- Witness for C1 amended: a flat (quantity-0) state keeps its portfolio
value across a stepForward. -/
theorem c1_witness :
    ({ c1state with position := initialPosition } : EngineState).position.quantity = 0 ∧
    totalPortfolioValue (applyOp { c1state with position := initialPosition }
      Op.stepForward) =
      totalPortfolioValue { c1state with position := initialPosition } :=
  ⟨rfl,
   (c1_cursor_ops_preserve_cash_and_position
     { c1state with position := initialPosition } Op.stepForward).2.2.2 rfl⟩

/-- C4 counterexample: in a 50-bar session with warm-up offset 20, stepBack
at cursor 20 moves the cursor to 19 — the handleStepBack guard only stops
at index 0, so the cursor does decrease below the warm-up offset. -/
theorem c4_counterexample :
    c4state.currentCandleIndex = 20 ∧ c4state.allCandles.length = 50 ∧
    (handleStepBack c4state).currentCandleIndex = 19 ∧
    ¬(handleStepBack c4state).currentCandleIndex = 20 := by
  decide

/-- C4 amended: stepBack is a no-op exactly at cursor index 0, the hard
minimum; at any positive cursor index (including the warm-up offset 20) it
decrements the cursor by one, so only 0 bounds the cursor from below. -/
theorem c4_stepBack_noop_only_at_zero :
    ∀ s : EngineState,
      (s.currentCandleIndex = 0 → handleStepBack s = s) ∧
      (0 < s.currentCandleIndex →
        (handleStepBack s).currentCandleIndex = s.currentCandleIndex - 1) := by
  intro s
  constructor
  · intro h0
    simp [handleStepBack, h0]
  · intro hpos
    simp [handleStepBack, hpos]

/-- Witness for C4 amended: stepBack is a no-op at cursor 0 and decrements
at cursor 20. -/
theorem c4_witness :
    (c4zero.currentCandleIndex = 0 ∧ handleStepBack c4zero = c4zero) ∧
    (0 < c4state.currentCandleIndex ∧
      (handleStepBack c4state).currentCandleIndex =
        c4state.currentCandleIndex - 1) :=
  ⟨⟨rfl, (c4_stepBack_noop_only_at_zero c4zero).1 rfl⟩,
   ⟨by decide, (c4_stepBack_noop_only_at_zero c4state).2 (by decide)⟩⟩

/-- A cursor operation never pushes the cursor past the last candle index. -/
theorem applyOp_cursor_le (s : EngineState) (op : Op)
    (h : s.currentCandleIndex ≤ s.allCandles.length - 1) :
    (applyOp s op).currentCandleIndex ≤ s.allCandles.length - 1 := by
  cases op
  all_goals
    simp only [applyOp, playbackTick, intervalCallback, handleStepForward,
      handleStepBack]
  all_goals split_ifs
  all_goals simp_all
  all_goals omega

/-- C7: while Playing and strictly before the last index a tick advances
the cursor by exactly one; once the cursor sits at the last index a tick is
a no-op (the interval is no longer scheduled) and a straggling interval
callback only clears the playing flag; and under any sequence of ticks and
step commands the cursor never exceeds the last index. -/
theorem c7_tick_advances_and_cursor_bounded :
    (∀ s : EngineState, s.isPlaying = true →
      s.currentCandleIndex < s.allCandles.length - 1 →
      (playbackTick s).currentCandleIndex = s.currentCandleIndex + 1) ∧
    (∀ s : EngineState, s.currentCandleIndex = s.allCandles.length - 1 →
      playbackTick s = s) ∧
    (∀ s : EngineState, s.allCandles.length - 1 ≤ s.currentCandleIndex →
      intervalCallback s = { s with isPlaying := false }) ∧
    (∀ (s : EngineState) (ops : List Op),
      s.currentCandleIndex ≤ s.allCandles.length - 1 →
      (runOps s ops).currentCandleIndex ≤ s.allCandles.length - 1) := by
  refine ⟨?_, ?_, ?_, ?_⟩
  · intro s hplay hlt
    have hnot : ¬(s.allCandles.length - 1 ≤ s.currentCandleIndex) := not_le.2 hlt
    simp [playbackTick, intervalCallback, hplay, hlt, hnot]
  · intro s hend
    have : ¬(s.currentCandleIndex < s.allCandles.length - 1) := by omega
    simp [playbackTick, this]
  · intro s hge
    simp [intervalCallback, hge]
  · intro s ops
    induction ops generalizing s with
    | nil => intro h; simpa [runOps] using h
    | cons op rest ih =>
      intro h
      rw [runOps]
      have hc := (applyOp_preserves s op).2.2.2
      have hnext := applyOp_cursor_le s op h
      have := ih (applyOp s op) (by rw [hc]; exact hnext)
      rw [hc] at this
      exact this

/-- Witness for C7: a 2-bar playing session advances 0 → 1 on a tick, is
stable at the final index, and stays bounded under a mixed op sequence. -/
theorem c7_witness :
    (c7state.isPlaying = true ∧
      c7state.currentCandleIndex < c7state.allCandles.length - 1 ∧
      (playbackTick c7state).currentCandleIndex =
        c7state.currentCandleIndex + 1) ∧
    (c7end.currentCandleIndex = c7end.allCandles.length - 1 ∧
      playbackTick c7end = c7end) ∧
    (c7end.allCandles.length - 1 ≤ c7end.currentCandleIndex ∧
      intervalCallback c7end = { c7end with isPlaying := false }) ∧
    (c7state.currentCandleIndex ≤ c7state.allCandles.length - 1 ∧
      (runOps c7state [Op.tick, Op.stepForward, Op.tick,
        Op.stepBack]).currentCandleIndex ≤ c7state.allCandles.length - 1) :=
  ⟨⟨rfl, by decide,
    c7_tick_advances_and_cursor_bounded.1 c7state rfl (by decide)⟩,
   ⟨by decide, c7_tick_advances_and_cursor_bounded.2.1 c7end (by decide)⟩,
   ⟨by decide, c7_tick_advances_and_cursor_bounded.2.2.1 c7end (by decide)⟩,
   ⟨by decide, c7_tick_advances_and_cursor_bounded.2.2.2 c7state
      [Op.tick, Op.stepForward, Op.tick, Op.stepBack] (by decide)⟩⟩

/-- C9: restoring from a persisted snapshot reproduces balance, trades,
cursor, timeframe and the persisted position fields verbatim — the restore
path never replays trades against bars — and once the derived
unrealized-PnL effect reruns over the same candle data the full position is
identical, provided the pre-save unrealized PnL was itself the value the
effect maintains. -/
theorem c9_snapshot_roundtrip (cap : Rat) (s s₀ : EngineState) :
    (restoreSession cap (buildSnapshot s) s₀).balance = s.balance ∧
    (restoreSession cap (buildSnapshot s) s₀).trades = s.trades ∧
    (restoreSession cap (buildSnapshot s) s₀).currentCandleIndex =
      s.currentCandleIndex ∧
    (restoreSession cap (buildSnapshot s) s₀).selectedTimeframe =
      s.selectedTimeframe ∧
    (restoreSession cap (buildSnapshot s) s₀).position.quantity =
      s.position.quantity ∧
    (restoreSession cap (buildSnapshot s) s₀).position.averagePrice =
      s.position.averagePrice ∧
    (s₀.allCandles = s.allCandles →
      s.position.unrealizedPnL =
        (if s.position.quantity ≠ 0 ∧ currentPriceOf s > 0 then
          (currentPriceOf s - s.position.averagePrice) * s.position.quantity
        else 0) →
      recomputeUnrealizedPnL
        (currentPriceOf (restoreSession cap (buildSnapshot s) s₀))
        (restoreSession cap (buildSnapshot s) s₀).position = s.position) := by
  refine ⟨rfl, rfl, rfl, rfl, rfl, rfl, ?_⟩
  intro hbars hpnl
  have hprice :
      currentPriceOf (restoreSession cap (buildSnapshot s) s₀) =
        currentPriceOf s := by
    simp [currentPriceOf, restoreSession, buildSnapshot, hbars]
  rw [hprice]
  simp only [restoreSession, buildSnapshot, recomputeUnrealizedPnL]
  split_ifs with h
  · have hval : s.position.unrealizedPnL =
        (currentPriceOf s - s.position.averagePrice) * s.position.quantity := by
      rw [hpnl, if_pos h]
    rw [← hval]
  · have hval : s.position.unrealizedPnL = 0 := by
      rw [hpnl, if_neg h]
    rw [← hval]

/-- Witness for C9: a consistent 2-unit position at average 90 marked
against price 100 survives the save/restore round trip in full. -/
theorem c9_witness :
    (c9state.allCandles = c9state.allCandles ∧
      c9state.position.unrealizedPnL =
        (if c9state.position.quantity ≠ 0 ∧ currentPriceOf c9state > 0 then
          (currentPriceOf c9state - c9state.position.averagePrice) *
            c9state.position.quantity
        else 0)) ∧
    recomputeUnrealizedPnL
      (currentPriceOf (restoreSession 500 (buildSnapshot c9state) c9state))
      (restoreSession 500 (buildSnapshot c9state) c9state).position =
      c9state.position := by
  have hpnl : c9state.position.unrealizedPnL =
      (if c9state.position.quantity ≠ 0 ∧ currentPriceOf c9state > 0 then
        (currentPriceOf c9state - c9state.position.averagePrice) *
          c9state.position.quantity
      else 0) := by
    norm_num [c9state, currentPriceOf, currentPriceAt, flatCandle]
  exact ⟨⟨rfl, hpnl⟩,
    (c9_snapshot_roundtrip 500 c9state c9state).2.2.2.2.2.2 rfl hpnl⟩

end BKST
